import Mathlib

/-!
Verification of custom_components/innonet (the INNOnet Home Assistant
integration) against its natural-language specification.

The definitions below are a shallow embedding of the Python code in
`custom_components/innonet/coordinator.py`.  Parsed JSON is modelled by the
inductive type `Json`; Python numbers (ints and floats) are modelled as
rationals, which is exact for every arithmetic operation the code performs
that a claim exercises (division by 100).  Python dictionaries appearing as
JSON objects are modelled as association lists with first-match lookup.
-/

namespace Innonet

/-- A parsed JSON value (the input type of `_extract_data_list` and of the
discovery-response processing).  Python numbers are modelled as rationals. -/
inductive Json where
  | null
  | bool (b : Bool)
  | num (q : ℚ)
  | str (s : String)
  | arr (elems : List Json)
  | obj (kvs : List (String × Json))

/-- Python truthiness of a JSON value (`if x:`). -/
def Json.pyTruthy : Json → Bool
  | .null => false
  | .bool b => b
  | .num q => decide (q ≠ 0)
  | .str s => decide (s ≠ "")
  | .arr l => !l.isEmpty
  | .obj kvs => !kvs.isEmpty

/-- `d.get(k1, d.get(k2, dflt))` on a JSON object: the value stored under
`k1` when the key is present (even when that value is JSON null), else the
value under `k2`, else `dflt`.  This is exactly Python `dict.get` chaining
as used throughout `coordinator.py`. -/
def pyGetD (kvs : List (String × Json)) (k1 k2 : String) (dflt : Json) : Json :=
  match List.lookup k1 kvs with
  | some v => v
  | none =>
    match List.lookup k2 kvs with
    | some v => v
    | none => dflt

/-- `_extract_data_list` (coordinator.py lines 150-176): robustly extract the
data list and the unit from nested JSON.  The unit component is a Python
value that may be `None`; `Json.null` models `None` (Python `dict.get`
returns `None` both for an absent key and for a stored JSON null, so the two
are indistinguishable, as in the source). -/
def extractDataList : Json → List Json × Json
  | .arr l => (l, .null)
  | .obj kvs =>
    let unit := pyGetD kvs "Unit" "unit" .null
    match pyGetD kvs "Data" "data" .null with
    | .arr l => (l, unit)
    | .obj kvs1 =>
      let unit1 := if unit.pyTruthy then unit else pyGetD kvs1 "Unit" "unit" .null
      match pyGetD kvs1 "Data" "data" .null with
      | .arr l2 => (l2, unit1)
      | _ => ([], unit1)
    | _ => ([], unit)
  | _ => ([], .null)

/-- Fuel-bounded descent, written from the spec's words for the Response
Normalizer (spec section 4.1, amended to the exact key spellings the code
recognises): a list is returned as-is; an object read during descent
supplies a unit from key `Unit` (else `unit`) only when no truthy unit was
found so far, and is descended through key `Data` (else `data`); the fuel
bounds the number of descents, and anything else yields an empty list.
`descend 2` expresses "descent stops after two levels". -/
def descend : Nat → Json → Json → List Json × Json
  | _, unit, .arr l => (l, unit)
  | 0, unit, _ => ([], unit)
  | fuel + 1, unit, .obj kvs =>
    let u := if unit.pyTruthy then unit else pyGetD kvs "Unit" "unit" .null
    descend fuel u (pyGetD kvs "Data" "data" .null)
  | _, unit, _ => ([], unit)

lemma descend_succ_obj (n : Nat) (u : Json) (kvs : List (String × Json)) :
    descend (n + 1) u (Json.obj kvs)
      = descend n (if u.pyTruthy then u else pyGetD kvs "Unit" "unit" Json.null)
          (pyGetD kvs "Data" "data" Json.null) := rfl

lemma descend_zero_eq (u j : Json) :
    descend 0 u j = ((match j with | .arr l => l | _ => []), u) := by
  cases j <;> rfl

theorem extract_eq_descend_two (j : Json) :
    extractDataList j = descend 2 Json.null j := by
  cases j with
  | arr l => rfl
  | null => rfl
  | bool b => rfl
  | num q => rfl
  | str s => rfl
  | obj kvs =>
    rw [descend_succ_obj]
    simp only [extractDataList]
    cases h1 : pyGetD kvs "Data" "data" Json.null with
    | arr l => rfl
    | null => rfl
    | bool b => rfl
    | num q => rfl
    | str s => rfl
    | obj kvs1 =>
      rw [descend_succ_obj, descend_zero_eq]
      cases h2 : pyGetD kvs1 "Data" "data" Json.null <;> simp only [h2] <;> rfl

/-- A data item (a Python dict) restricted to the six keys the coordinator
ever reads or writes: the case-varying raw keys `Value`/`Flag`/`From` and
the canonical keys `v`/`f`/`t`.  `none` means the key is absent; keys the
code never touches pass through every function below unchanged and are
therefore not modelled. -/
@[ext]
structure Item where
  Value : Option Json
  Flag : Option Json
  From : Option Json
  v : Option Json
  f : Option Json
  t : Option Json

/-- Python `float(x)` as used on item values: numbers convert to themselves
and booleans to 0/1; `float` of `None`, lists and dicts raises `TypeError`
(modelled as `none`, the code catches it and passes).  Python also parses
numeric strings, which no claim exercises; strings are modelled as raising. -/
def Json.toFloat : Json → Option ℚ
  | .num q => some q
  | .bool b => some (if b then 1 else 0)
  | _ => none

/-- `x is not None` for the result of `item.get(k)`: false when the key is
absent (the `get` returned `None`) and when the stored value is JSON null. -/
def pyIsNotNone : Option Json → Bool
  | none => false
  | some .null => false
  | some _ => true

/-- Whether `pat` is a leading segment of `cs` (character-wise). -/
def startsWithL : List Char → List Char → Bool
  | [], _ => true
  | _ :: _, [] => false
  | p :: ps, c :: cs => p == c && startsWithL ps cs

/-- Python `pat in s` on character lists: `pat` occurs contiguously in `s`. -/
def hasSubL (pat : List Char) : List Char → Bool
  | [] => startsWithL pat []
  | c :: cs => startsWithL pat (c :: cs) || hasSubL pat cs

/-- Python `s.lower()` restricted to its ASCII action, which covers every
string the code compares (API names and unit strings). -/
def lowerChars (s : String) : List Char := s.data.map Char.toLower

/-- The condition `unit and "cent" in unit.lower()` of `_normalize_data`
line 226: the unit string is truthy (non-`None` and non-empty) and its
lowercasing contains the substring `cent` (an empty string is falsy and
also contains no `cent`, so truthiness needs no separate test). -/
def unitHasCent : Option String → Bool
  | none => false
  | some u => hasSubL "cent".data (lowerChars u)

/-- Lines 221-223 of `_normalize_data`: `if "Value" in item: item["v"] =
item["Value"]` and likewise `Flag`→`f`, `From`→`t`.  The three assignments
touch distinct target keys and read only source keys that are never
written, so the sequential mutation is rendered as one record update. -/
def copyKeys (it : Item) : Item :=
  { it with
    v := if it.Value.isSome then it.Value else it.v
    f := if it.Flag.isSome then it.Flag else it.f
    t := if it.From.isSome then it.From else it.t }

/-- Lines 225-230 of `_normalize_data`: when the unit mentions cent and the
item has a non-`None` value, `item["v"] = float(item["v"]) / 100.0`, with
`ValueError`/`TypeError` swallowed (leaving the item unchanged). -/
def centConvert (unit : Option String) (it : Item) : Item :=
  if unitHasCent unit && pyIsNotNone it.v then
    match it.v with
    | some jv =>
      match jv.toFloat with
      | some q => { it with v := some (.num (q / 100)) }
      | none => it
    | none => it
  else it

/-- `_normalize_data` (coordinator.py lines 217-232).  The guard
`if not item: return item` is subsumed: on an item with none of the six
keys the body is the identity. -/
def normalizeData (it : Item) (unit : Option String) : Item :=
  centConvert unit (copyKeys it)

/-- The sentinel `SUN_WINDOW_VALUE = 1` of `_calculate_sun_window`. -/
def SUN_WINDOW_VALUE : Int := 1

/-- Python `==` between an item's value (`item.get("v")`, possibly absent)
and an int constant: numbers compare numerically, booleans compare as 0/1
(Python `True == 1`), everything else (including `None`) is unequal. -/
def pyEqInt : Option Json → Int → Bool
  | some (.num q), n => decide (q = (n : ℚ))
  | some (.bool b), n => decide ((if b then (1 : Int) else 0) = n)
  | _, _ => false

/-- A point is in the low-tariff window when its value equals the sentinel. -/
def isLow (it : Item) : Bool := pyEqInt it.v SUN_WINDOW_VALUE

/-- The result dict of `_calculate_sun_window`, with its four keys. -/
structure SunWindow where
  sun_window_active : Bool
  next_sun_start : Option Json
  next_sun_end : Option Json
  tariff_signal_now : Option Item

/-- The initial `result` dict of `_calculate_sun_window` lines 180-185. -/
def emptySunWindow : SunWindow :=
  { sun_window_active := false
    next_sun_start := none
    next_sun_end := none
    tariff_signal_now := none }

/-- The inactive branch of `_calculate_sun_window` (lines 205-213): scan for
the first item with value 1; its timestamp is the start, and the first item
at or after it with value differing from 1 gives the end (the activation
item itself never matches that inner predicate). -/
def findStartEnd : List Item → Option Json × Option Json
  | [] => (none, none)
  | it :: rest =>
    if isLow it then
      (it.t, (List.find? (fun s => !isLow s) (it :: rest)).bind Item.t)
    else findStartEnd rest

/-- `_calculate_sun_window` (coordinator.py lines 178-215).  The argument is
`forecast_list : list | None`; `if not forecast_list:` is true for both
`None` and the empty list. -/
def calculateSunWindow : Option (List Item) → SunWindow
  | none => emptySunWindow
  | some [] => emptySunWindow
  | some (current :: rest) =>
    let isActive := pyEqInt current.v SUN_WINDOW_VALUE
    if isActive then
      { sun_window_active := true
        next_sun_start := current.t
        next_sun_end :=
          (List.find? (fun it => !isLow it) (current :: rest)).bind Item.t
        tariff_signal_now := some current }
    else
      { sun_window_active := false
        next_sun_start := (findStartEnd (current :: rest)).1
        next_sun_end := (findStartEnd (current :: rest)).2
        tariff_signal_now := some current }

/-- Characterization of the inactive-branch scan: the start is the timestamp
of the first low point, and the end is the timestamp of the first non-low
point in the suffix beginning at that first low point. -/
lemma findStartEnd_eq (l : List Item) :
    findStartEnd l
      = ((List.find? isLow l).bind Item.t,
         (List.find? (fun s => !isLow s)
            (List.dropWhile (fun s => !isLow s) l)).bind Item.t) := by
  induction l with
  | nil => rfl
  | cons it rest ih =>
    by_cases h : isLow it
    · simp [findStartEnd, List.find?, List.dropWhile, h]
    · simp only [findStartEnd, h, if_false, ih]
      have h' : (fun s => !isLow s) it = true := by simp [h]
      simp [List.find?_cons_of_neg, List.dropWhile, h, h']

/-- A forecast point with a numeric value and a string timestamp, as
produced by normalization of the API forecast. -/
def mkPoint (n : ℚ) (ts : String) : Item :=
  { Value := none, Flag := none, From := none
    v := some (.num n), f := none, t := some (.str ts) }

/-- The spec's first Window Analyzer example sequence, values 1,1,1,0,0. -/
def exampleA : List Item :=
  [mkPoint 1 "T0", mkPoint 1 "T1", mkPoint 1 "T2", mkPoint 0 "T3",
   mkPoint 0 "T4"]

/-- The spec's second Window Analyzer example sequence, values 0,0,1,1,0. -/
def exampleB : List Item :=
  [mkPoint 0 "T0", mkPoint 0 "T1", mkPoint 1 "T2", mkPoint 1 "T3",
   mkPoint 0 "T4"]

/-- C1: for every forecast sequence, `active` is true exactly when the
first point's value equals the low-tariff code; when active, `start` is the
first point's timestamp and `end` is the timestamp of the first subsequent
point whose value differs (null if none); when inactive, `start` is the
timestamp of the first point whose value equals the code and `end` the
timestamp of the first point after it whose value differs (both null when
no activation point exists); an empty or null sequence yields the all-null
inactive result; and the two example sequences 1,1,1,0,0 and 0,0,1,1,0
yield (active, T0, T3) and (inactive, T2, T4) respectively. -/
theorem sun_window_matches_spec :
    calculateSunWindow none = emptySunWindow ∧
    calculateSunWindow (some []) = emptySunWindow ∧
    (∀ l : List Item,
      (calculateSunWindow (some l)).tariff_signal_now = l.head? ∧
      (calculateSunWindow (some l)).sun_window_active
        = l.head?.elim false isLow ∧
      ((calculateSunWindow (some l)).sun_window_active = true →
        (calculateSunWindow (some l)).next_sun_start = l.head?.bind Item.t ∧
        (calculateSunWindow (some l)).next_sun_end
          = (List.find? (fun it => !isLow it) l).bind Item.t) ∧
      ((calculateSunWindow (some l)).sun_window_active = false →
        (calculateSunWindow (some l)).next_sun_start
          = (List.find? isLow l).bind Item.t ∧
        (calculateSunWindow (some l)).next_sun_end
          = (List.find? (fun s => !isLow s)
              (List.dropWhile (fun s => !isLow s) l)).bind Item.t)) ∧
    calculateSunWindow (some exampleA)
      = { sun_window_active := true
          next_sun_start := some (.str "T0")
          next_sun_end := some (.str "T3")
          tariff_signal_now := some (mkPoint 1 "T0") } ∧
    calculateSunWindow (some exampleB)
      = { sun_window_active := false
          next_sun_start := some (.str "T2")
          next_sun_end := some (.str "T4")
          tariff_signal_now := some (mkPoint 0 "T0") } := by
  refine ⟨rfl, rfl, ?_, by rfl, by rfl⟩
  intro l
  cases l with
  | nil =>
    refine ⟨rfl, rfl, ?_, fun _ => ⟨rfl, rfl⟩⟩
    intro h
    exact absurd h (by decide)
  | cons c rest =>
    by_cases h : isLow c
    · have hv : pyEqInt c.v SUN_WINDOW_VALUE = true := h
      refine ⟨?_, ?_, ?_, ?_⟩
      · simp [calculateSunWindow, hv]
      · simp [calculateSunWindow, hv, h]
      · intro _
        constructor
        · simp [calculateSunWindow, hv]
        · simp [calculateSunWindow, hv]
      · intro hfalse
        have : (calculateSunWindow (some (c :: rest))).sun_window_active
            = true := by simp [calculateSunWindow, hv]
        rw [hfalse] at this
        exact absurd this (by decide)
    · have hv : pyEqInt c.v SUN_WINDOW_VALUE = false := by
        simpa using h
      refine ⟨?_, ?_, ?_, ?_⟩
      · simp [calculateSunWindow, hv]
      · simp [calculateSunWindow, hv, isLow]
      · intro htrue
        have : (calculateSunWindow (some (c :: rest))).sun_window_active
            = false := by simp [calculateSunWindow, hv]
        rw [htrue] at this
        exact absurd this (by decide)
      · intro _
        constructor
        · simp [calculateSunWindow, hv, findStartEnd_eq]
        · simp [calculateSunWindow, hv, findStartEnd_eq]

/-- Closed instance of `sun_window_matches_spec`: the active-branch clause
evaluated on the first example sequence. -/
theorem sun_window_matches_spec_witness :
    (calculateSunWindow (some exampleA)).next_sun_start
        = exampleA.head?.bind Item.t ∧
    (calculateSunWindow (some exampleA)).next_sun_end
        = (List.find? (fun it => !isLow it) exampleA).bind Item.t :=
  (sun_window_matches_spec.2.2.1 exampleA).2.2.1 (by decide)

lemma centConvert_only_v (u : Option String) (x : Item) :
    (centConvert u x).Value = x.Value ∧ (centConvert u x).Flag = x.Flag ∧
    (centConvert u x).From = x.From ∧ (centConvert u x).f = x.f ∧
    (centConvert u x).t = x.t := by
  unfold centConvert
  split
  · cases hv : x.v with
    | none => simp
    | some jv => cases h2 : jv.toFloat <;> simp [h2]
  · simp

lemma centConvert_of_no_cent (u : Option String) (x : Item)
    (h : unitHasCent u = false) : centConvert u x = x := by
  unfold centConvert
  simp [h]

lemma copyKeys_Value (x : Item) : (copyKeys x).Value = x.Value := rfl

lemma copyKeys_Flag (x : Item) : (copyKeys x).Flag = x.Flag := rfl

lemma copyKeys_From (x : Item) : (copyKeys x).From = x.From := rfl

lemma copyKeys_v (x : Item) :
    (copyKeys x).v = if x.Value.isSome then x.Value else x.v := rfl

lemma copyKeys_f (x : Item) :
    (copyKeys x).f = if x.Flag.isSome then x.Flag else x.f := rfl

lemma copyKeys_t (x : Item) :
    (copyKeys x).t = if x.From.isSome then x.From else x.t := rfl

lemma copyKeys_idem (it : Item) : copyKeys (copyKeys it) = copyKeys it := by
  cases hV : it.Value <;> cases hF : it.Flag <;> cases hG : it.From <;>
    simp [copyKeys, hV, hF, hG]

/-- An item carrying both the raw key `Value` (2) and the canonical key `v`
(5), with no unit: the canonical key is overwritten by the raw one. -/
def itemVF : Item :=
  { Value := some (.num 2), Flag := none, From := none
    v := some (.num 5), f := none, t := none }

/-- C7 counterexample: `_normalize_data` executes `item["v"] =
item["Value"]` whenever `Value` is present, overwriting an existing
canonical `v`; copy-if-absent semantics fail on `itemVF`. -/
theorem normalize_overwrites_v :
    itemVF.v = some (Json.num 5) ∧
    (normalizeData itemVF none).v = some (Json.num 2) ∧
    (normalizeData itemVF none).v ≠ itemVF.v := by
  refine ⟨rfl, rfl, fun hc => ?_⟩
  rw [show (normalizeData itemVF none).v = some (Json.num 2) from rfl,
    show itemVF.v = some (Json.num 5) from rfl] at hc
  simp only [Option.some.injEq, Json.num.injEq] at hc
  norm_num at hc

/-- C7 amended: the raw keys `Value`/`Flag`/`From` are copied onto `v`/`f`/
`t` whenever present, overwriting any existing canonical value; a canonical
key is left untouched exactly when the corresponding raw key is absent (for
`v`, stated away from cent conversion); the raw keys themselves are never
modified. -/
theorem normalize_copy_semantics (it : Item) (u : Option String) :
    (normalizeData it u).Value = it.Value ∧
    (normalizeData it u).Flag = it.Flag ∧
    (normalizeData it u).From = it.From ∧
    (normalizeData it u).f = (if it.Flag.isSome then it.Flag else it.f) ∧
    (normalizeData it u).t = (if it.From.isSome then it.From else it.t) ∧
    (unitHasCent u = false →
      (normalizeData it u).v
        = (if it.Value.isSome then it.Value else it.v)) := by
  have h := centConvert_only_v u (copyKeys it)
  refine ⟨?_, ?_, ?_, ?_, ?_, fun hc => ?_⟩
  · rw [normalizeData, h.1]; rfl
  · rw [normalizeData, h.2.1]; rfl
  · rw [normalizeData, h.2.2.1]; rfl
  · rw [normalizeData, h.2.2.2.1]; rfl
  · rw [normalizeData, h.2.2.2.2]; rfl
  · rw [normalizeData, centConvert_of_no_cent u _ hc]; rfl

/-- Closed instance of `normalize_copy_semantics` at `itemVF` with no
unit, its cent-free hypothesis discharged. -/
theorem normalize_copy_semantics_witness :
    (normalizeData itemVF none).Value = itemVF.Value ∧
    (normalizeData itemVF none).v
      = (if itemVF.Value.isSome then itemVF.Value else itemVF.v) :=
  ⟨(normalize_copy_semantics itemVF none).1,
   (normalize_copy_semantics itemVF none).2.2.2.2.2 (by decide)⟩

/-- A canonical-only item whose value is 100, and a cent unit. -/
def itemC : Item :=
  { Value := none, Flag := none, From := none
    v := some (.num 100), f := none, t := none }

/-- The unit string under which `itemC` gets normalized. -/
def centUnit : Option String := some "Cent/kWh"

/-- C8 counterexample: normalizing `itemC` under `Cent/kWh` yields the
already-canonical item with value 1; re-normalizing that item under the
same unit divides by 100 again, yielding value 1/100 — not the same item. -/
theorem renormalize_cent_changes_item :
    normalizeData (normalizeData itemC centUnit) centUnit
      ≠ normalizeData itemC centUnit := by
  have hcent : unitHasCent centUnit = true := by decide
  have e1 : normalizeData itemC centUnit
      = { Value := none, Flag := none, From := none
          v := some (.num 1), f := none, t := none } := by
    simp [normalizeData, copyKeys, centConvert, itemC, hcent, pyIsNotNone,
      Json.toFloat]
  have e2 : normalizeData
      { Value := none, Flag := none, From := none
        v := some (.num 1), f := none, t := none } centUnit
      = { Value := none, Flag := none, From := none
          v := some (.num (1 / 100)), f := none, t := none } := by
    simp [normalizeData, copyKeys, centConvert, hcent, pyIsNotNone,
      Json.toFloat]
  rw [e1, e2]
  intro hc
  have h2 := congrArg Item.v hc
  simp only [Option.some.injEq, Json.num.injEq] at h2
  norm_num at h2

lemma copyKeys_after_centConvert (u : Option String) (it : Item)
    (h : it.Value.isSome = true) :
    copyKeys (centConvert u (copyKeys it)) = copyKeys it := by
  have hco := centConvert_only_v u (copyKeys it)
  apply Item.ext
  · simp [copyKeys_Value, hco.1]
  · simp [copyKeys_Flag, hco.2.1]
  · simp [copyKeys_From, hco.2.2.1]
  · simp [copyKeys_v, copyKeys_Value, hco.1, h]
  · cases hF : it.Flag <;>
      simp [copyKeys_f, copyKeys_Flag, hco.2.1, hco.2.2.2.1, hF]
  · cases hG : it.From <;>
      simp [copyKeys_t, copyKeys_From, hco.2.2.1, hco.2.2.2.2, hG]

/-- C8 amended: re-normalizing an already-normalized item under the same
unit yields the same item, provided the unit does not contain "cent"
(case-insensitively) or the item still carries its raw `Value` key; with a
cent unit and no raw `Value` key, the value is divided by 100 again (see
the counterexample). -/
theorem normalize_idempotent_conditional (it : Item) (u : Option String)
    (h : unitHasCent u = false ∨ it.Value.isSome = true) :
    normalizeData (normalizeData it u) u = normalizeData it u := by
  cases h with
  | inl hnc =>
    simp [normalizeData, centConvert_of_no_cent, hnc, copyKeys_idem]
  | inr hval =>
    rw [normalizeData, normalizeData, copyKeys_after_centConvert u it hval]

/-- Closed instance of `normalize_idempotent_conditional` on an item that
retains its raw `Value` key, under the cent unit. -/
theorem normalize_idempotent_conditional_witness :
    normalizeData (normalizeData itemVF centUnit) centUnit
      = normalizeData itemVF centUnit :=
  normalize_idempotent_conditional itemVF centUnit (Or.inr (by decide))

/-- C6 counterexample: keys are not matched case-insensitively — a
top-level object whose data field is spelled `DATA` yields the empty list
instead of the wrapped list. -/
theorem extract_uppercase_data_ignored :
    extractDataList (.obj [("DATA", .arr [.num 1])]) = ([], .null) ∧
    ([] : List Json) ≠ [Json.num 1] := ⟨rfl, by simp⟩

/-- The scheduler's observable state: the set of pending one-shot timers
this coordinator has created in the event loop (as their fire instants, in
seconds), and `self._unsub_scheduled_update`, the handle tracking the timer
armed last (cancelling through the handle removes that timer). -/
structure SchedulerState where
  armed : List Int
  handle : Option Int

/-- The literal `timedelta(seconds=30)` of line 135 (the code comment says
2 seconds, the code adds 30). -/
def SAFETY_MARGIN_SECONDS : Int := 30

/-- Lines 110-126 for one of the two window timestamps: the candidate list
contributed by a timestamp, kept only when it is strictly after now.  The
argument is the parsed datetime of `next_sun_start` / `next_sun_end`
(`none` when the key is missing, falsy, or fails to parse). -/
def futureCandidate (now : Int) : Option Int → List Int
  | some t => if now < t then [t] else []
  | none => []

/-- `_schedule_sun_window_update` (coordinator.py lines 100-141): cancel the
tracked timer, collect the window timestamps strictly after now, and if any
exist arm one timer at the earliest plus the safety margin. -/
def scheduleSunWindowUpdate (st : SchedulerState) (now : Int)
    (s e : Option Int) : SchedulerState :=
  let armed :=
    match st.handle with
    | some h => st.armed.erase h
    | none => st.armed
  let targets := futureCandidate now s ++ futureCandidate now e
  match targets.min? with
  | none => { armed := armed, handle := none }
  | some m =>
    let nextUpdate := m + SAFETY_MARGIN_SECONDS
    { armed := armed ++ [nextUpdate], handle := some nextUpdate }

/-- `_handle_scheduled_update` (lines 143-148): the fired timer leaves the
loop, the handle is cleared, and the only action is requesting a refresh
(the returned flag). -/
def handleScheduledUpdate (st : SchedulerState) (fired : Int) :
    SchedulerState × Bool :=
  ({ armed := st.armed.erase fired, handle := none }, true)

/-- The coordinator's timers are exactly the one its handle tracks. -/
def trackedOnly (st : SchedulerState) : Prop :=
  st.armed = st.handle.elim [] (fun h => [h])

/-- Spec-side description of the instant to arm: the earliest of the window
start and end timestamps that lie strictly after now. -/
def earliestFuture (now : Int) (s e : Option Int) : Option Int :=
  match s.bind (fun t => if now < t then some t else none),
        e.bind (fun t => if now < t then some t else none) with
  | none, none => none
  | some a, none => some a
  | none, some b => some b
  | some a, some b => some (min a b)

/-- C5: from a state whose pending timers are exactly the tracked one, a
scheduling pass cancels the tracked timer first and leaves exactly one
timer — armed at the earliest future window instant plus the 30-second
safety margin — or none at all when neither instant is in the future; the
invariant is preserved, so successive cycles re-arm instead of stacking,
and the armed timer's callback does nothing but request a refresh. -/
theorem scheduler_rearm_spec (st : SchedulerState) (now : Int)
    (s e : Option Int) (hinv : trackedOnly st) :
    trackedOnly (scheduleSunWindowUpdate st now s e) ∧
    (scheduleSunWindowUpdate st now s e).armed
      = ((earliestFuture now s e).map
          (fun m => m + SAFETY_MARGIN_SECONDS)).toList ∧
    SAFETY_MARGIN_SECONDS = 30 ∧
    (∀ fired : Int,
      (handleScheduledUpdate (scheduleSunWindowUpdate st now s e) fired).2
        = true) := by
  obtain ⟨armed, handle⟩ := st
  have harmed : armed = handle.elim [] (fun h => [h]) := hinv
  subst harmed
  have hcancel :
      (match handle with
        | some h => (handle.elim [] (fun h2 => [h2])).erase h
        | none => handle.elim [] (fun h2 => [h2])) = ([] : List Int) := by
    cases handle <;> simp
  cases s with
  | none =>
    cases e with
    | none =>
      refine ⟨?_, ?_, rfl, fun fired => rfl⟩ <;>
        cases handle <;> simp [scheduleSunWindowUpdate, futureCandidate,
          trackedOnly, earliestFuture, List.min?]
    | some te =>
      by_cases he : now < te <;>
        refine ⟨?_, ?_, rfl, fun fired => rfl⟩ <;>
          cases handle <;> simp [scheduleSunWindowUpdate, futureCandidate,
            trackedOnly, earliestFuture, List.min?, he]
  | some ts =>
    cases e with
    | none =>
      by_cases hs : now < ts <;>
        refine ⟨?_, ?_, rfl, fun fired => rfl⟩ <;>
          cases handle <;> simp [scheduleSunWindowUpdate, futureCandidate,
            trackedOnly, earliestFuture, List.min?, hs]
    | some te =>
      by_cases hs : now < ts <;> by_cases he : now < te <;>
        refine ⟨?_, ?_, rfl, fun fired => rfl⟩ <;>
          cases handle <;> simp [scheduleSunWindowUpdate, futureCandidate,
            trackedOnly, earliestFuture, List.min?, hs, he]

/-- Closed instance of `scheduler_rearm_spec`: start in 10 minutes, end in
70 minutes, no timer armed yet. -/
theorem scheduler_rearm_spec_witness :
    trackedOnly (scheduleSunWindowUpdate ⟨[], none⟩ 0 (some 600)
        (some 4200)) ∧
    (scheduleSunWindowUpdate ⟨[], none⟩ 0 (some 600) (some 4200)).armed
      = ((earliestFuture 0 (some 600) (some 4200)).map
          (fun m => m + SAFETY_MARGIN_SECONDS)).toList ∧
    SAFETY_MARGIN_SECONDS = 30 ∧
    (∀ fired : Int,
      (handleScheduledUpdate
        (scheduleSunWindowUpdate ⟨[], none⟩ 0 (some 600) (some 4200))
        fired).2 = true) :=
  scheduler_rearm_spec ⟨[], none⟩ 0 (some 600) (some 4200) rfl

/-- A value stored in the `data` dict assembled by `_async_update_data`:
a fetched item, or one of the four window fields. -/
inductive DValue where
  | ofItem (it : Item)
  | ofBool (b : Bool)
  | ofOptJson (j : Option Json)
  | ofOptItem (it : Option Item)

/-- The snapshot dict built by one refresh cycle, in insertion order. -/
abbrev SnapshotData := List (String × DValue)

/-- A (projected) item is the empty dict when none of the six modelled keys
is present. -/
def Item.isEmptyDict (it : Item) : Bool :=
  it.Value.isNone && it.Flag.isNone && it.From.isNone && it.v.isNone &&
    it.f.isNone && it.t.isNone

/-- `if fetched: data[key] = fetched` — the fetch result is stored exactly
when it is truthy (not `None` and not an empty dict). -/
def addIfTruthy (d : SnapshotData) (key : String) (o : Option Item) :
    SnapshotData :=
  match o with
  | some it => if !it.isEmptyDict then d ++ [(key, .ofItem it)] else d
  | none => d

/-- Lines 48-76 of `_async_update_data`: store each truthy fetch result
under its key, then `data.update(window_info)` — the four window fields are
always appended, whatever the forecast was. -/
def assembleData (grid eBase eFee eVat : Option Item)
    (forecast : List Item) : SnapshotData :=
  let d : SnapshotData := []
  let d := addIfTruthy d "grid_price" grid
  let d := addIfTruthy d "energy_base" eBase
  let d := addIfTruthy d "energy_fee" eFee
  let d := addIfTruthy d "energy_vat" eVat
  let w := calculateSunWindow (some forecast)
  d ++ [("sun_window_active", .ofBool w.sun_window_active),
        ("next_sun_start", .ofOptJson w.next_sun_start),
        ("next_sun_end", .ofOptJson w.next_sun_end),
        ("tariff_signal_now", .ofOptItem w.tariff_signal_now)]

/-- What one refresh cycle's awaited I/O amounts to: either some exception
escaped the `try` body (transport error, timeout — any `Exception`), or all
fetches completed with the given per-series results (`_fetch_timeseries_moment`
returns `None`-or-item, `_fetch_forecast` returns a list, both swallow
their own errors). -/
inductive FetchOutcome where
  | raise
  | ok (grid eBase eFee eVat : Option Item) (forecast : List Item)

/-- The caller-visible result of `_async_update_data`: a returned snapshot
or an `UpdateFailed` exception with its message. -/
inductive UpdateResult where
  | snapshot (d : SnapshotData)
  | updateFailed (msg : String)

/-- `_async_update_data` (coordinator.py lines 46-98).  The
`except (aiohttp.ClientError, Exception)` clause catches every `Exception`
— including the coordinator's own `UpdateFailed("No data received...")`
from line 79 — and returns `self.data` (the previous snapshot) when that is
truthy, else raises `UpdateFailed`.  `prev` models `self.data` (`none`
before any snapshot exists).  The scheduling side effect of line 83 is
modelled separately by `scheduleSunWindowUpdate`. -/
def asyncUpdateData (prev : Option SnapshotData) (outcome : FetchOutcome) :
    UpdateResult :=
  match outcome with
  | .raise =>
    match prev with
    | some d =>
      if d.isEmpty then .updateFailed "Error communicating with API"
      else .snapshot d
    | none => .updateFailed "Error communicating with API"
  | .ok g b f v fc =>
    let data := assembleData g b f v fc
    if data.isEmpty then
      match prev with
      | some d =>
        if d.isEmpty then
          .updateFailed "Error communicating with API: No data received from INNOnet API."
        else .snapshot d
      | none =>
        .updateFailed "Error communicating with API: No data received from INNOnet API."
    else .snapshot data

/-- The assembled dict always carries the four window keys, so it is never
empty — the `if not data:` check of line 78 can never fire. -/
lemma assembleData_ne_nil (g b f v : Option Item) (fc : List Item) :
    assembleData g b f v fc ≠ [] := by
  simp only [assembleData]
  intro hc
  exact absurd (List.append_eq_nil.mp hc).2 (by simp)

/-- C3: when the refresh cycle raises and a previous snapshot exists, that
snapshot is returned unchanged; when none exists, an update failure is
surfaced. -/
theorem fallback_on_raise :
    (∀ d : SnapshotData, d ≠ [] →
      asyncUpdateData (some d) .raise = .snapshot d) ∧
    asyncUpdateData none .raise
      = .updateFailed "Error communicating with API" := by
  refine ⟨fun d hd => ?_, rfl⟩
  cases d with
  | nil => exact absurd rfl hd
  | cons a l => rfl

/-- Closed instance of `fallback_on_raise`: a transport failure with a
one-entry prior snapshot returns it field-for-field. -/
theorem fallback_on_raise_witness :
    asyncUpdateData (some [("grid_price", DValue.ofItem (mkPoint 5 "T0"))])
        .raise
      = .snapshot [("grid_price", DValue.ofItem (mkPoint 5 "T0"))] :=
  fallback_on_raise.1 _ (by simp)

/-- C4 (code bug): a cycle that completes with nothing fetched at all — no
series resolved, every fetch empty, empty forecast, and no prior snapshot —
is NOT surfaced as a failure: because `data.update(window_info)` always
inserts the four window keys before the `if not data:` check, the code
returns a vacuous snapshot instead of raising. -/
theorem empty_cycle_produces_snapshot :
    asyncUpdateData none (.ok none none none none [])
      = .snapshot [("sun_window_active", .ofBool false),
                   ("next_sun_start", .ofOptJson none),
                   ("next_sun_end", .ofOptJson none),
                   ("tariff_signal_now", .ofOptItem none)] := rfl

/-- C2 (code bug): no stale-value guard exists — a freshly fetched item
with value exactly 0 is stored in the snapshot verbatim even though the
previous snapshot carried 5; nothing substitutes the persisted non-zero
value and no persisted-value store exists in the integration. -/
theorem zero_value_passthrough :
    asyncUpdateData (some [("grid_price", DValue.ofItem (mkPoint 5 "T0"))])
        (.ok (some (mkPoint 0 "T1")) none none none [])
      = .snapshot [("grid_price", DValue.ofItem (mkPoint 0 "T1")),
                   ("sun_window_active", .ofBool false),
                   ("next_sun_start", .ofOptJson none),
                   ("next_sun_end", .ofOptJson none),
                   ("tariff_signal_now", .ofOptItem none)] := rfl

/-- C10: every `Exception` escaping the cycle body — transport errors and
the internal no-data `UpdateFailed` alike — is converted into returning the
previous snapshot whenever a truthy one exists, so an update failure can
only ever surface while no snapshot has ever been produced. -/
theorem failure_only_without_snapshot :
    (∀ (d : SnapshotData) (o : FetchOutcome), d ≠ [] →
      ∃ d2, asyncUpdateData (some d) o = .snapshot d2) ∧
    (∀ (prev : Option SnapshotData) (o : FetchOutcome) (msg : String),
      asyncUpdateData prev o = .updateFailed msg →
        prev = none ∨ prev = some []) := by
  constructor
  · intro d o hd
    cases o with
    | raise =>
      refine ⟨d, ?_⟩
      cases d with
      | nil => exact absurd rfl hd
      | cons a l => rfl
    | ok g b f v fc =>
      refine ⟨assembleData g b f v fc, ?_⟩
      simp [asyncUpdateData, List.isEmpty_iff, assembleData_ne_nil]
  · intro prev o msg hfail
    cases prev with
    | none => exact Or.inl rfl
    | some d =>
      cases d with
      | nil => exact Or.inr rfl
      | cons a l =>
        cases o with
        | raise => simp [asyncUpdateData] at hfail
        | ok g b f v fc =>
          rw [asyncUpdateData] at hfail
          simp only [List.isEmpty_iff, assembleData_ne_nil, if_false] at hfail
          exact absurd hfail (by simp)

/-- Closed instance of `failure_only_without_snapshot`: with a nonempty
prior snapshot, even a raising cycle yields a snapshot, not a failure. -/
theorem failure_only_without_snapshot_witness :
    ∃ d2, asyncUpdateData
        (some [("energy_base", DValue.ofItem (mkPoint 1 "T1"))]) .raise
      = .snapshot d2 :=
  failure_only_without_snapshot.1 _ .raise (by simp)

/-- `self.resolved_names`, the logical-key → concrete-series-name dict. -/
abbrev NameMap := List (String × String)

/-- Python dict assignment `m[k] = newV`: update in place when the key
exists, else append. -/
def dictSet (m : NameMap) (k newV : String) : NameMap :=
  if (List.lookup k m).isSome then
    m.map (fun p => if p.1 = k then (k, newV) else p)
  else m ++ [(k, newV)]

/-- The classification body of `_discover_timeseries_names` (lines
244-261) for one discovered name: independent substring tests on the
lowercased name set the `tariff-signal` and `innonet-tariff` keys, and a
`public-energy-tariff` match is split into fee / vat / base. -/
def classifyName (m : NameMap) (name : String) : NameMap :=
  let lower := lowerChars name
  let m1 :=
    if hasSubL "tariff-signal".data lower then
      dictSet m "tariff-signal" name
    else m
  let m2 :=
    if hasSubL "innonet-tariff".data lower then
      dictSet m1 "innonet-tariff" name
    else m1
  if hasSubL "public-energy-tariff".data lower then
    if hasSubL "fee".data lower then dictSet m2 "energy-fee" name
    else if hasSubL "vat".data lower then dictSet m2 "energy-vat" name
    else dictSet m2 "energy-base" name
  else m2

/-- `item.get("Name", item.get("name", ""))` followed by `.lower()`:
`none` models the `AttributeError` raised when the stored name is not a
string (or the item is not a dict) — the outer `except` swallows it,
aborting the loop. -/
def itemName : Json → Option String
  | .obj kvs =>
    match pyGetD kvs "Name" "name" (.str "") with
    | .str s => some s
    | _ => none
  | _ => none

/-- The `for item in items:` loop of `_discover_timeseries_names`; a
mid-loop exception keeps the classifications made so far. -/
def processItems (m : NameMap) : List Json → NameMap
  | [] => m
  | it :: rest =>
    match itemName it with
    | some name => processItems (classifyName m name) rest
    | none => m

/-- `_discover_timeseries_names` (coordinator.py lines 234-264): `resp` is
the parsed discovery response, `none` when the request failed (network
error or non-200 status); every failure path is swallowed and the function
never raises (it is total). -/
def discoverTimeseriesNames (m : NameMap) (resp : Option Json) : NameMap :=
  match resp with
  | none => m
  | some j => processItems m (extractDataList j).1

/-- The discovery attempts one refresh cycle makes, with the final map and
the number of attempts: line 53 runs discovery only when the map is
entirely empty, and `_fetch_forecast` (lines 287-288) runs it again only
when the `tariff-signal` key specifically is unresolved.  The moment
fetches never trigger discovery. -/
def refreshDiscovery (m : NameMap) (resp1 resp2 : Option Json) :
    NameMap × Nat :=
  let p1 : NameMap × Nat :=
    if m.isEmpty then (discoverTimeseriesNames m resp1, 1) else (m, 0)
  if (List.lookup "tariff-signal" p1.1).isNone then
    (discoverTimeseriesNames p1.1 resp2, p1.2 + 1)
  else p1

/-- A map resolving only the signal series, and a discovery response that
would resolve the price series. -/
def signalOnlyMap : NameMap := [("tariff-signal", "tariff-signal-zpn1")]

/-- A discovery response listing the price series name. -/
def usefulResp : Json := .arr [.obj [("Name", .str "innonet-tariff-zpn1")]]

/-- C9 counterexample: with `innonet-tariff` (and the energy keys) still
unresolved but `tariff-signal` resolved, a refresh attempts no discovery at
all — even though running discovery on the available response would have
resolved the missing key. -/
theorem partial_map_no_rediscovery :
    refreshDiscovery signalOnlyMap (some usefulResp) (some usefulResp)
      = (signalOnlyMap, 0) ∧
    List.lookup "innonet-tariff" signalOnlyMap = none ∧
    List.lookup "innonet-tariff"
        (discoverTimeseriesNames signalOnlyMap (some usefulResp))
      = some "innonet-tariff-zpn1" := by
  refine ⟨?_, rfl, ?_⟩ <;> rfl

/-- C9 amended: a discovery failure (network error / non-200, or a response
whose extracted item list is empty) leaves the resolved-name map unchanged
— and discovery never raises, being total; but re-discovery during a
refresh happens only when the map is entirely empty at the start of the
cycle or the `tariff-signal` key specifically is unresolved when the
forecast is fetched — a map populated for some keys and missing others
triggers none. -/
theorem discovery_best_effort :
    (∀ m : NameMap, discoverTimeseriesNames m none = m) ∧
    (∀ (m : NameMap) (j : Json), (extractDataList j).1 = [] →
      discoverTimeseriesNames m (some j) = m) ∧
    (∀ (m : NameMap) (r1 r2 : Option Json), m.isEmpty = false →
      (List.lookup "tariff-signal" m).isSome = true →
      refreshDiscovery m r1 r2 = (m, 0)) ∧
    (∀ (m : NameMap) (r1 r2 : Option Json),
      (m.isEmpty = true ∨ List.lookup "tariff-signal" m = none) →
      1 ≤ (refreshDiscovery m r1 r2).2) := by
  refine ⟨fun m => rfl, fun m j hj => ?_, fun m r1 r2 hne hsig => ?_,
    fun m r1 r2 hmiss => ?_⟩
  · simp [discoverTimeseriesNames, hj, processItems]
  · obtain ⟨v, hv⟩ := Option.isSome_iff_exists.mp hsig
    simp [refreshDiscovery, hne, hv]
  · rcases hmiss with hempty | hsig
    · by_cases h2 :
        (List.lookup "tariff-signal"
          (discoverTimeseriesNames m r1)).isNone <;>
        simp [refreshDiscovery, hempty, h2]
    · by_cases h1 : m.isEmpty <;>
        [skip;
         simp [refreshDiscovery, h1, hsig]]
      by_cases h2 :
        (List.lookup "tariff-signal"
          (discoverTimeseriesNames m r1)).isNone <;>
        simp [refreshDiscovery, h1, h2]

/-- Closed instance of `discovery_best_effort`: a map with the signal key
resolved and any other key missing triggers zero discovery attempts. -/
theorem discovery_best_effort_witness :
    refreshDiscovery [("tariff-signal", "sig-x")] none none
      = ([("tariff-signal", "sig-x")], 0) :=
  discovery_best_effort.2.2.1 _ none none (by rfl) (by rfl)

end Innonet
